import Mathlib

/-!
Verification of the swarm consensus, market-data aggregation and RPC retry
layers of the Solana AI Studio repository, shallowly embedded in Lean.

Python floats are modelled as rationals; wall-clock times as rationals
(seconds); Python dicts that the code builds with a fixed key set are
modelled as structures with one field per key.
-/

namespace SolanaStudio


/-- Vote decision strings produced by `SwarmAgent.evaluate_proposal`
(`src/solana_swarm/core/swarm_agent.py`): "approve", "abstain", "reject". -/
inductive Decision where
  | approve
  | abstain
  | reject
deriving DecidableEq, Repr

/-- A vote dict produced by `SwarmAgent.evaluate_proposal`:
`{"decision": ..., "confidence": ..., "reasoning": ...}`. -/
structure SVote where
  decision : Decision
  confidence : ℚ
  reasoning : String
deriving DecidableEq, Repr

/-- The result dict of `SwarmAgent.propose_action`
(`swarm_agent.py` lines 114-120). -/
structure ProposeOutcome where
  consensus : Bool
  approval_rate : ℚ
  total_votes : ℕ
  votes : List SVote
  reasons : List String
deriving DecidableEq, Repr

/-- `positive_votes = sum(1 for v in votes if v["decision"] == "approve")`
(`swarm_agent.py` line 105). -/
def positive_votes (votes : List SVote) : ℕ :=
  (votes.filter (fun v => v.decision == Decision.approve)).length

/-- The aggregation step of `SwarmAgent.propose_action`
(`swarm_agent.py` lines 103-120): the approval rate is the COUNT of
approve votes divided by the total number of votes (0 when there are no
votes), and consensus requires that rate to reach `min_confidence` and the
approve count to reach `min_votes`. -/
def propose_aggregate (min_confidence : ℚ) (min_votes : ℕ)
    (votes : List SVote) : ProposeOutcome :=
  let total := votes.length
  let pos := positive_votes votes
  let rate : ℚ := if 0 < total then (pos : ℚ) / (total : ℚ) else 0
  { consensus := decide (min_confidence ≤ rate) && decide (min_votes ≤ pos)
    approval_rate := rate
    total_votes := total
    votes := votes
    reasons := votes.map (fun v => v.reasoning) }

/-- The `Vote` dataclass of `src/solana_swarm/core/consensus.py`
(decision is declared `bool` there). -/
structure CVote where
  agent_id : String
  decision : Bool
  confidence : ℚ
  reasoning : String
deriving DecidableEq, Repr

/-- The result dict of `ConsensusManager.reach_consensus`
(`consensus.py` lines 74-105); the insufficient-votes branch carries a
`reason` entry, the normal branch does not. -/
structure ConsensusOutcome where
  consensus : Bool
  approval_rate : ℚ
  total_votes : ℕ
  reason : Option String
  confidence_scores : List ℚ
  reasons : List String
deriving DecidableEq, Repr

/-- `sum(vote.confidence for vote in votes)` (`consensus.py` line 87). -/
def total_confidence (votes : List CVote) : ℚ :=
  (votes.map (fun v => v.confidence)).sum

/-- `sum(vote.confidence for vote in votes if vote.decision)`
(`consensus.py` lines 91-93). -/
def approve_confidence (votes : List CVote) : ℚ :=
  ((votes.filter (fun v => v.decision)).map (fun v => v.confidence)).sum

/-- Number of votes whose decision is approve (true), over the
consensus-manager vote type. -/
def count_approve (votes : List CVote) : ℕ :=
  (votes.filter (fun v => v.decision)).length

/-- `ConsensusManager.reach_consensus` (`consensus.py` lines 74-105):
below `min_votes` TOTAL votes the outcome is the insufficient-votes record
with approval rate 0; otherwise the approval rate is confidence-weighted
and consensus is that rate reaching `min_confidence` (the approve COUNT is
not consulted). -/
def reach_consensus (min_confidence : ℚ) (min_votes : ℕ)
    (votes : List CVote) : ConsensusOutcome :=
  if votes.length < min_votes then
    { consensus := false
      approval_rate := 0
      total_votes := votes.length
      reason := some "Insufficient votes"
      confidence_scores := []
      reasons := [] }
  else
    let tc := total_confidence votes
    let weighted : ℚ := if tc = 0 then 0 else approve_confidence votes / tc
    { consensus := decide (min_confidence ≤ weighted)
      approval_rate := weighted
      total_votes := votes.length
      reason := none
      confidence_scores := votes.map (fun v => v.confidence)
      reasons := votes.map (fun v => v.reasoning) }

/-- Modelled from the spec (section 4.4): the confidence-weighted approval
rate -- sum of confidences of approve votes over sum of confidences of all
votes, 0 when the denominator is 0 -- stated over the consensus-manager
vote type. -/
def specWeightedRateC (votes : List CVote) : ℚ :=
  if total_confidence votes = 0 then 0
  else approve_confidence votes / total_confidence votes

/-- Sum of confidences of approve votes, over the swarm-agent vote type. -/
def approve_confidence_s (votes : List SVote) : ℚ :=
  ((votes.filter (fun v => v.decision == Decision.approve)).map
    (fun v => v.confidence)).sum

/-- Sum of confidences of all votes, over the swarm-agent vote type. -/
def total_confidence_s (votes : List SVote) : ℚ :=
  (votes.map (fun v => v.confidence)).sum

/-- Modelled from the spec (section 4.4): the confidence-weighted approval
rate over the swarm-agent vote type. -/
def specWeightedRateS (votes : List SVote) : ℚ :=
  if total_confidence_s votes = 0 then 0
  else approve_confidence_s votes / total_confidence_s votes

/-- The two-vote round that separates the two approval-rate formulas:
an approve vote with confidence 9/10 and a reject vote with confidence
1/10. -/
def c1votes : List SVote :=
  [⟨Decision.approve, 9/10, "a"⟩, ⟨Decision.reject, 1/10, "b"⟩]

/-- The three-vote list on which `reach_consensus` reports consensus with
only one approve vote: approve 9/10, reject 1/10, reject 0. -/
def c2votes : List CVote :=
  [⟨"a", true, 9/10, "x"⟩, ⟨"b", false, 1/10, "y"⟩, ⟨"c", false, 0, "z"⟩]

/-- The result dict of `SwarmAgent.evaluate` (`swarm_agent.py` lines
209-243) as consumed by `evaluate_proposal`: the code reads
`result.get("confidence", 0.5)` and `result.get("reasoning",
result.get("conclusion", "No reasoning provided"))` and tests
`"error" in result`, so those three entries may be absent. -/
structure EvalOutput where
  reasoning : Option String
  conclusion : Option String
  confidence : Option ℚ
  error : Option String
deriving DecidableEq, Repr

/-- `SwarmAgent.evaluate_proposal` (`swarm_agent.py` lines 125-176) as a
function of the peer's `min_confidence`, its running flag, and the outcome
of `self.evaluate(context)` (`.error` = that call raised). Every branch,
including the exception handler, returns a vote dict: the function itself
never raises. -/
def evaluate_proposal (min_confidence : ℚ) (is_running : Bool)
    (ev : Except String EvalOutput) : SVote :=
  if !is_running then ⟨Decision.reject, 0, "Agent is not running"⟩
  else
    match ev with
    | .error e => ⟨Decision.reject, 0, "Evaluation failed: " ++ e⟩
    | .ok r =>
      match r.error with
      | some e => ⟨Decision.reject, 0, "Evaluation error: " ++ e⟩
      | none =>
        let confidence := r.confidence.getD (5/10)
        let reasoning := r.reasoning.getD (r.conclusion.getD "No reasoning provided")
        if min_confidence ≤ confidence then ⟨Decision.approve, confidence, reasoning⟩
        else if (4/10 : ℚ) ≤ confidence then ⟨Decision.abstain, confidence, reasoning⟩
        else ⟨Decision.reject, confidence, reasoning⟩

/-- The state of one swarm peer as consulted during a round: its own
`min_confidence`, its running flag, and the outcome of its evaluation. -/
structure PeerState where
  min_confidence : ℚ
  is_running : Bool
  eval : Except String EvalOutput
deriving Repr

/-- A running peer whose evaluation yields confidence 9/10 (an approve
vote at threshold 7/10) with reasoning "a". -/
def approvePeer : PeerState := ⟨7/10, true, .ok ⟨some "a", none, some (9/10), none⟩⟩

/-- A running peer whose evaluation yields confidence 1/10 (a reject
vote) with reasoning "b". -/
def rejectPeer : PeerState := ⟨7/10, true, .ok ⟨some "b", none, some (1/10), none⟩⟩

/-- `SwarmAgent.propose_action` (`swarm_agent.py` lines 86-123) as a
function of the proposer's thresholds and its peers: each peer contributes
exactly one vote through `evaluate_proposal` (which converts a raised
evaluation into a reject/0 vote instead of propagating it), and the votes
are aggregated with `propose_aggregate`. -/
def propose_action (min_confidence : ℚ) (min_votes : ℕ)
    (peers : List PeerState) : ProposeOutcome :=
  propose_aggregate min_confidence min_votes
    (peers.map (fun p => evaluate_proposal p.min_confidence p.is_running p.eval))

/-- What `ConsensusManager._get_agent_vote` (`consensus.py` lines 61-72)
sees of one agent: its id and the outcome of
`agent.evaluate_proposal(proposal)` -- decision, confidence and reasoning
entries of the result dict, or `.error` when the call raised. -/
structure AgentSpec where
  id : String
  eval : Except String (Bool × ℚ × String)
deriving Repr

/-- `ConsensusManager._get_agent_vote`: build a `Vote` from the result
dict, or return `None` when the evaluation raised. -/
def get_agent_vote (a : AgentSpec) : Option CVote :=
  match a.eval with
  | .ok r => some ⟨a.id, r.1, r.2.1, r.2.2⟩
  | .error _ => none

/-- `ConsensusManager.collect_votes` (`consensus.py` lines 33-59): one
task per agent; the comprehension `[vote for vote in results if vote]`
DROPS the `None` of every agent whose evaluation raised. -/
def collect_votes (agents : List AgentSpec) : List CVote :=
  agents.filterMap get_agent_vote

/-- True when the agent's evaluation did not raise. -/
def eval_succeeded (a : AgentSpec) : Bool :=
  match a.eval with
  | .ok _ => true
  | .error _ => false

/-- An agent whose evaluation returns an approve vote with confidence
9/10. -/
def okAgent : AgentSpec := ⟨"a", .ok (true, 9/10, "ok")⟩

/-- An agent whose evaluation raises. -/
def badAgent : AgentSpec := ⟨"b", .error "boom"⟩

/-- `DataSource` enum of `src/solana_swarm/core/market_data.py`. -/
inductive DataSource where
  | jupiter
  | coingecko
  | binance
  | coinbase
  | pyth
  | switchboard
deriving DecidableEq, Repr

/-- `DataSource.value` strings. -/
def DataSource.value : DataSource → String
  | .jupiter => "jupiter"
  | .coingecko => "coingecko"
  | .binance => "binance"
  | .coinbase => "coinbase"
  | .pyth => "pyth"
  | .switchboard => "switchboard"

/-- The `PriceData` dataclass (`market_data.py` lines 33-56); prices,
volumes and timestamps as rationals (timestamps in seconds). -/
structure PriceData where
  symbol : String
  price : ℚ
  volume_24h : ℚ
  change_24h : ℚ
  market_cap : Option ℚ
  timestamp : ℚ
  source : DataSource
  confidence : ℚ
deriving DecidableEq, Repr

/-- The dict produced by `PriceData.to_dict` (`market_data.py` lines
45-56): same data with the source rendered as its enum value string. -/
structure PriceDict where
  symbol : String
  price : ℚ
  volume_24h : ℚ
  change_24h : ℚ
  market_cap : Option ℚ
  timestamp : ℚ
  source : String
  confidence : ℚ
deriving DecidableEq, Repr

/-- `PriceData.to_dict`. -/
def PriceData.to_dict (p : PriceData) : PriceDict :=
  { symbol := p.symbol
    price := p.price
    volume_24h := p.volume_24h
    change_24h := p.change_24h
    market_cap := p.market_cap
    timestamp := p.timestamp
    source := p.source.value
    confidence := p.confidence }

/-- Python `str.upper()` restricted to ASCII (every token symbol handled
by this module is ASCII), written so that it evaluates by kernel
reduction. -/
def py_upper (s : String) : String :=
  ⟨s.data.map (fun c => if 'a' ≤ c && c ≤ 'z' then Char.ofNat (c.toNat - 32) else c)⟩

/-- The price slice of `MarketDataManager.cache`: a mapping from key to
(record dict, insertion time); insertion time is the `datetime.now()` of
the cache write (`market_data.py` line 265). -/
abbrev PriceCache := List (String × PriceDict × ℚ)

/-- Lookup of a cache key. -/
def cache_lookup (cache : PriceCache) (key : String) : Option (PriceDict × ℚ) :=
  (cache.find? (fun e => e.1 == key)).map (fun e => e.2)

/-- `MarketDataManager._is_cache_valid` (`market_data.py` lines 195-200):
a key is fresh when now minus the stored INSERTION time is below the TTL;
the record's own timestamp field is not consulted. -/
def is_cache_valid (cache_ttl now : ℚ) (cache : PriceCache) (key : String) : Bool :=
  match cache_lookup cache key with
  | none => false
  | some e => decide (now - e.2 < cache_ttl)

/-- Python dict assignment `self.cache[key] = (d, now)`: replace any
previous entry under the key. -/
def cache_insert (cache : PriceCache) (key : String) (d : PriceDict) (now : ℚ) : PriceCache :=
  (key, d, now) :: cache.filter (fun e => e.1 != key)

/-- One source attempt as observed by `get_token_price`: the adapter call
either raises (`.error`), returns `None` (`.ok none`), or returns a
record. -/
abbrev SourceResult := Except String (Option PriceData)

/-- The source loop of `get_token_price` (`market_data.py` lines 246-272):
return the FIRST result that is present -- the test is `if price_data:`,
plain presence, with no check of `price > 0`; a raising source stores the
exception in `last_error` and the loop continues; a `None` result also
continues but leaves `last_error` unchanged. When no source yields a
record the loop falls through to the `MarketDataError` carrying the last
error (`.error`). -/
def fetch_first (results : List SourceResult) (last_error : Option String) :
    Except (Option String) PriceData :=
  match results with
  | [] => .error last_error
  | r :: rest =>
    match r with
    | .error e => fetch_first rest (some e)
    | .ok none => fetch_first rest last_error
    | .ok (some pd) => .ok pd

/-- `MarketDataManager.get_token_price` (`market_data.py` lines 226-272)
as a function of the cache TTL, the current time, the cache, the symbol
and the priority-ordered source results. Returns the result (the
`MarketDataError` case carries the last underlying error) together with
the updated cache. On a fresh cache entry the cached dict is returned and
no source is consulted; otherwise the first present source record is
converted with `to_dict`, written to the cache and returned. -/
def get_token_price (cache_ttl now : ℚ) (cache : PriceCache) (symbol : String)
    (results : List SourceResult) : Except (Option String) PriceDict × PriceCache :=
  let key := "price_" ++ py_upper symbol
  if is_cache_valid cache_ttl now cache key then
    match cache_lookup cache key with
    | some e => (.ok e.1, cache)
    | none => (.error none, cache)
  else
    match fetch_first results none with
    | .ok pd => (.ok pd.to_dict, cache_insert cache key pd.to_dict now)
    | .error le => (.error le, cache)

/-- One Pyth Hermes latest-price-feed entry as read by `_get_price_pyth`
(`market_data.py` lines 443-477): integer mantissa `price`, exponent
`expo`, and the oracle-side `publish_time`. -/
structure PythPrice where
  price : ℤ
  expo : ℤ
  publish_time : ℚ
deriving DecidableEq, Repr

/-- `MarketDataManager._get_price_pyth` on a 200 response: price is
`price × 10^expo`, confidence is the fixed 0.92, and the record's
timestamp field is `datetime.fromtimestamp(publish_time)` -- the ORACLE
publish time, not the fetch time. The argument is the first feed entry of
the response, or none when the response was empty or non-200. -/
def get_price_pyth (symbol : String) (feed : Option PythPrice) : Option PriceData :=
  match feed with
  | none => none
  | some f =>
    some { symbol := symbol
           price := (f.price : ℚ) * (10 : ℚ) ^ f.expo
           volume_24h := 0
           change_24h := 0
           market_cap := none
           timestamp := f.publish_time
           source := DataSource.pyth
           confidence := 92/100 }

/-- A present Jupiter-style record with price 0, as a source adapter
yields when the upstream quote is 0 (no adapter checks positivity before
building the record). -/
def zeroPriceRec : PriceData :=
  ⟨"SOL", 0, 0, 0, none, 100, DataSource.jupiter, 95/100⟩

/-- A Pyth feed entry whose publish time is far in the past (time 0). -/
def oldPythFeed : PythPrice := ⟨100, 0, 0⟩

/-- The price record `_get_price_pyth` builds from `oldPythFeed`: its own
timestamp field is the publish time 0. -/
def c8record : PriceData :=
  ⟨"SOL", 100, 0, 0, none, 0, DataSource.pyth, 92/100⟩

/-- The `DexData` dataclass (`market_data.py` lines 58-68). -/
structure DexData where
  name : String
  tvl : ℚ
  volume_24h : ℚ
  volume_7d : ℚ
  fees_24h : ℚ
  pools_count : ℕ
  timestamp : ℚ
  source : String
deriving DecidableEq, Repr

/-- One slot of the market overview: either the formatted data or an
`{"error": ...}` entry. -/
inductive Slot (α : Type) where
  | data (d : α)
  | err (message : String)
deriving DecidableEq, Repr

/-- Stand-in for Python `str()` of the price dict that `get_token_price`
returned (the repr of the dict); the claims only depend on the slot kind,
not on this rendering. -/
def py_str_price_dict (d : PriceDict) : String :=
  "price dict for " ++ d.symbol ++ " from " ++ d.source

/-- The per-token formatting step of `get_market_overview`
(`market_data.py` lines 625-630). The gathered value is either the DICT
returned by `get_token_price` or the raised exception --
`isinstance(price_data, PriceData)` is false for both, so BOTH arms fall
into the `{"error": str(price_data)}` branch. -/
def overview_token_entry (r : Except String PriceDict) : Slot PriceDict :=
  match r with
  | .ok d => Slot.err (py_str_price_dict d)
  | .error e => Slot.err e

/-- The per-DEX dict of the overview (tvl, volume_24h, pools_count). -/
structure DexInfoDict where
  tvl : ℚ
  volume_24h : ℚ
  pools_count : ℕ
deriving DecidableEq, Repr

/-- The per-DEX formatting step of `get_market_overview`
(`market_data.py` lines 632-642): `get_dex_data` DOES return a `DexData`
instance, so the isinstance test distinguishes success from failure
correctly on this side. -/
def overview_dex_entry (r : Except String DexData) : Slot DexInfoDict :=
  match r with
  | .ok d => Slot.data ⟨d.tvl, d.volume_24h, d.pools_count⟩
  | .error e => Slot.err e

/-- The overview dict (`market_data.py` lines 644-652). -/
structure Overview where
  tokens : List (String × Slot PriceDict)
  dexes : List (String × Slot DexInfoDict)
  total_ecosystem_tvl : ℚ
deriving DecidableEq, Repr

/-- `MarketDataManager.get_market_overview` (`market_data.py` lines
608-656) as a function of the four gathered token-price results (SOL,
USDC, RAY, ORCA; `asyncio.gather(..., return_exceptions=True)`, so a
failed fetch arrives as the exception value) and the three gathered DEX
results (raydium, orca, jupiter). -/
def get_market_overview
    (sol usdc ray orca : Except String PriceDict)
    (raydium orca_dex jupiter : Except String DexData) : Overview :=
  { tokens := [("SOL", overview_token_entry sol),
               ("USDC", overview_token_entry usdc),
               ("RAY", overview_token_entry ray),
               ("ORCA", overview_token_entry orca)]
    dexes := [("raydium", overview_dex_entry raydium),
              ("orca", overview_dex_entry orca_dex),
              ("jupiter", overview_dex_entry jupiter)]
    total_ecosystem_tvl :=
      (([raydium, orca_dex, jupiter].filterMap
        (fun r => match r with
                  | .ok d => some d.tvl
                  | .error _ => none)).sum) }

/-- A successfully fetched SOL price dict. -/
def solDict : PriceDict :=
  ⟨"SOL", 100, 0, 0, none, 100, "jupiter", 95/100⟩

/-- A successfully fetched Raydium snapshot. -/
def raydiumData : DexData :=
  ⟨"Raydium", 1000, 50, 300, 2, 10, 100, "raydium_api"⟩

/-- A parsed JSON value, the result of `json.loads`. -/
inductive Json where
  | obj (fields : List (String × Json))
  | arr (elems : List Json)
  | str (s : String)
  | num (q : ℚ)
  | jbool (b : Bool)
  | null
deriving Repr

/-- Dict lookup on a parsed JSON object. -/
def json_lookup (fields : List (String × Json)) (key : String) : Option Json :=
  (fields.find? (fun f => f.1 == key)).map (fun f => f.2)

/-- Python `isinstance(x, (int, float))` on a JSON value: numbers and
booleans (bool is a subclass of int in Python). -/
def json_is_numeric : Json → Bool
  | .num _ => true
  | .jbool _ => true
  | _ => false

/-- Numeric value of a Python number-or-bool (True = 1, False = 0);
0 elsewhere (never consulted there). -/
def json_num_val : Json → ℚ
  | .num q => q
  | .jbool b => if b then 1 else 0
  | _ => 0

/-- Stand-in for Python `str()` where a JSON value flows into a string
position; for actual strings it is the string itself (the only case the
claims depend on). -/
def json_text : Json → String
  | .str s => s
  | _ => "non-string JSON value"

/-- The exception kind `_parse_response` can raise. -/
inductive PyError where
  | typeError
deriving DecidableEq, Repr

/-- The dict returned by `SwarmAgent._parse_response` on success:
the four required entries (entries the response provided are kept as the
JSON values they were; missing ones are filled with defaults). -/
structure ParsedResult where
  observation : Json
  reasoning : Json
  conclusion : Json
  confidence : Json
deriving Repr

/-- `SwarmAgent._parse_response` (`swarm_agent.py` lines 265-292) as a
function of the agent role and the outcome of `json.loads(response)`
(`.error` = the response was not valid JSON and `json.loads` raised
`JSONDecodeError`).

* Parse failure: the fixed fallback dict is returned -- confidence 0.3,
  reasoning "LLM response could not be parsed as JSON".
* A JSON object: missing required entries are filled (confidence with
  0.5, text entries with a "No ... provided" string), and a confidence
  that is not an int/float/bool or lies outside [0,1] is replaced by 0.5
  (the isinstance test precedes the range test, short-circuiting).
* Any other JSON value (list, string, number, bool, null): the `in`
  membership test, the item assignment or the item read raises TypeError,
  which the `except json.JSONDecodeError` handler does NOT catch, so the
  call raises. -/
def parse_response (role : String) (parsed : Except Unit Json) :
    Except PyError ParsedResult :=
  match parsed with
  | .error _ =>
    .ok { observation := .str ("Response from " ++ role)
          reasoning := .str "LLM response could not be parsed as JSON"
          conclusion := .str "Unable to provide structured analysis"
          confidence := .num (3/10) }
  | .ok (.obj fields) =>
    let obs := (json_lookup fields "observation").getD (.str "No observation provided")
    let rea := (json_lookup fields "reasoning").getD (.str "No reasoning provided")
    let con := (json_lookup fields "conclusion").getD (.str "No conclusion provided")
    let cf0 := (json_lookup fields "confidence").getD (.num (5/10))
    let cf := if json_is_numeric cf0 && decide (0 ≤ json_num_val cf0)
                   && decide (json_num_val cf0 ≤ 1)
              then cf0 else Json.num (5/10)
    .ok { observation := obs, reasoning := rea, conclusion := con, confidence := cf }
  | .ok _ => .error PyError.typeError

/-- `SwarmAgent.evaluate` (`swarm_agent.py` lines 209-243) on the
LLM path, as a function of the role and the parse outcome of the LLM
response: `_parse_response` runs inside the try block, so its TypeError
on non-object JSON is caught by the handler and converted to the error
dict with confidence 0.0 and an "error" entry; a successful parse is
returned as-is (confidence modelled by its numeric value). -/
def evaluate_llm (role : String) (parsed : Except Unit Json) : EvalOutput :=
  match parse_response role parsed with
  | .ok r =>
    { reasoning := some (json_text r.reasoning)
      conclusion := some (json_text r.conclusion)
      confidence := some (json_num_val r.confidence)
      error := none }
  | .error _ =>
    { reasoning := some "Failed to complete evaluation: TypeError"
      conclusion := some "Unable to provide recommendation due to error"
      confidence := some 0
      error := some "TypeError" }

/-- The confidence entry of a `_parse_response` outcome, when one was
returned. -/
def parsed_conf (role : String) (parsed : Except Unit Json) : Option ℚ :=
  match parse_response role parsed with
  | .ok r => some (json_num_val r.confidence)
  | .error _ => none

/-- What one invocation of the inner `_send_transaction` closure does on
one client during one attempt (`solana_integration.py` lines 267-283):
the blockhash fetch may raise BEFORE anything is transmitted; otherwise
the signed payload is handed to `client.send_transaction`, which either
raises after the send left for the remote (timeout waiting for
confirmation, definitive RPC error, ...) or returns the signature. -/
inductive SendStep where
  | blockhash_failed (e : String)
  | send_failed (e : String)
  | send_ok (signature : String)
deriving DecidableEq, Repr

/-- Number of sendTransaction RPC calls one step transmits to a remote. -/
def SendStep.sends : SendStep → ℕ
  | .blockhash_failed _ => 0
  | .send_failed _ => 1
  | .send_ok _ => 1

/-- Whether the step returned (vs. raised). -/
def SendStep.result : SendStep → Option String
  | .blockhash_failed _ => none
  | .send_failed _ => none
  | .send_ok s => some s

/-- The inner client loop of `_execute_with_retry`
(`solana_integration.py` lines 198-215) during one attempt, for
`send_transaction`: invoke the closure on each client of
`[primary] + backups` in order; EVERY exception -- including one raised
after the payload was transmitted -- is caught and the loop continues
with the next client. Returns the signature of the first success (if
any) and the number of sendTransaction calls transmitted. The
`last_exception` bookkeeping only feeds the final error message and is
not modelled. -/
def attempt_clients (step : ℕ → SendStep) : List ℕ → Option String × ℕ
  | [] => (none, 0)
  | i :: rest =>
    match (step i).result with
    | some s => (some s, (step i).sends)
    | none =>
      let r := attempt_clients step rest
      (r.1, (step i).sends + r.2)

/-- The outer attempt loop of `_execute_with_retry`
(`solana_integration.py` lines 197-219): `for attempt in
range(max_retries)`, re-running the FULL client loop each time (with a
backoff sleep between cycles, not modelled); raises `SolanaError` when
every attempt on every client failed. -/
def run_attempts (behavior : ℕ → ℕ → SendStep) (num_clients : ℕ) :
    List ℕ → Option String × ℕ
  | [] => (none, 0)
  | a :: rest =>
    let r := attempt_clients (behavior a) (List.range num_clients)
    match r.1 with
    | some s => (some s, r.2)
    | none =>
      let r2 := run_attempts behavior num_clients rest
      (r2.1, r.2 + r2.2)

/-- `SolanaConnection.send_transaction` dispatched through
`_execute_with_retry` (`solana_integration.py` lines 258-285 and
192-221): the non-idempotent send uses exactly the same retry/failover
loop as the idempotent reads. `behavior attempt client` is what the
closure does on that (attempt, client) pair; the second component counts
the sendTransaction RPC calls transmitted over the whole invocation. -/
def send_transaction_run (max_retries num_clients : ℕ)
    (behavior : ℕ → ℕ → SendStep) : Option String × ℕ :=
  run_attempts behavior num_clients (List.range max_retries)

/-- A primary whose send raises after transmission on every attempt and a
backup that accepts the re-sent payload. -/
def c3behavior : ℕ → ℕ → SendStep := fun _ client =>
  if client = 0 then SendStep.send_failed "timeout after payload transmitted"
  else SendStep.send_ok "sig"

/-- The fields of `SolanaConfig` consulted by `__post_init__`
(`solana_integration.py` lines 34-75), before validation. There is NO
simulation flag anywhere in this configuration. -/
structure SolanaConfigIn where
  network : String
  rpc_url : String
  ws_url : String
  private_key : String
  wallet_path : Option String
  backup_rpcs : Option (List String)
deriving DecidableEq, Repr

/-- The validated configuration produced by a successful
`__post_init__`. -/
structure SolanaConfigOut where
  network : String
  rpc_url : String
  ws_url : String
  private_key : String
  wallet_path : Option String
  backup_rpcs : List String
deriving DecidableEq, Repr

/-- Python truthiness of the Optional[str] `wallet_path` field: `None`
and the empty string are falsy. -/
def opt_truthy : Option String → Bool
  | none => false
  | some s => s != ""

/-- `SolanaConfig.__post_init__` (`solana_integration.py` lines 58-75):
derive the RPC URL from the network when absent (ConfigError on an
unknown network), derive the websocket URL, then REQUIRE one of
`private_key` / `wallet_path` -- when NEITHER is provided the
constructor raises ConfigError unconditionally; no branch generates an
ephemeral keypair and no simulation flag exists to consult. Finally the
absent backup list defaults to `[]`. -/
def post_init (c : SolanaConfigIn) : Except String SolanaConfigOut :=
  match (if c.rpc_url == "" then
           (if c.network == "mainnet-beta" then
              Except.ok "https://api.mainnet-beta.solana.com"
            else if c.network == "devnet" then
              Except.ok "https://api.devnet.solana.com"
            else
              Except.error ("RPC URL required for network: " ++ c.network))
         else Except.ok c.rpc_url : Except String String) with
  | .error e => .error e
  | .ok rpc =>
    let ws := if c.ws_url == ""
              then (rpc.replace "https://" "wss://").replace "http://" "ws://"
              else c.ws_url
    if c.private_key == "" && !(opt_truthy c.wallet_path) then
      .error "Either private_key or wallet_path must be provided"
    else
      .ok ⟨c.network, rpc, ws, c.private_key, c.wallet_path, c.backup_rpcs.getD []⟩

/-- A configuration that provides neither a base58 secret key nor a
keypair file path, on the default network. -/
def noKeyConfig : SolanaConfigIn :=
  ⟨"mainnet-beta", "", "", "", none, none⟩

/-- C1 counterexample: a full `propose_action` round over two concrete
running peers (confidences 9/10 approving and 1/10 rejecting) collects
exactly the votes `c1votes` and reports approvalRate 1/2 -- the count of
approve votes over the total -- while the confidence-weighted formula the
claim commits to gives 9/10 on those very votes; so not every proposal
round uses the confidence-weighted formula. -/
theorem c1_counterexample :
    (propose_action (7/10) 2 [approvePeer, rejectPeer]).votes = c1votes
    ∧ (propose_action (7/10) 2 [approvePeer, rejectPeer]).approval_rate = 1/2
    ∧ specWeightedRateS c1votes = 9/10
    ∧ (propose_action (7/10) 2 [approvePeer, rejectPeer]).approval_rate
        ≠ specWeightedRateS c1votes := by
  have hv1 : evaluate_proposal (7/10) true (.ok ⟨some "a", none, some (9/10), none⟩)
      = ⟨Decision.approve, 9/10, "a"⟩ := by
    simp only [evaluate_proposal]
    norm_num
  have hv2 : evaluate_proposal (7/10) true (.ok ⟨some "b", none, some (1/10), none⟩)
      = ⟨Decision.reject, 1/10, "b"⟩ := by
    simp only [evaluate_proposal]
    norm_num
  have hmap : (propose_action (7/10) 2 [approvePeer, rejectPeer])
      = propose_aggregate (7/10) 2 c1votes := by
    simp only [propose_action, approvePeer, rejectPeer, List.map_cons, List.map_nil,
      hv1, hv2]
    rfl
  have hpos : positive_votes c1votes = 1 := by rfl
  have hlen : c1votes.length = 2 := by rfl
  have htc : total_confidence_s c1votes = 1 := by
    norm_num [total_confidence_s, c1votes]
  have hfilter : c1votes.filter (fun v => v.decision == Decision.approve)
      = [⟨Decision.approve, 9/10, "a"⟩] := by rfl
  have hac : approve_confidence_s c1votes = 9/10 := by
    rw [approve_confidence_s, hfilter]
    simp
  have h1 : (propose_action (7/10) 2 [approvePeer, rejectPeer]).approval_rate = 1/2 := by
    rw [hmap]
    simp only [propose_aggregate, hpos, hlen]
    norm_num
  have h2 : specWeightedRateS c1votes = 9/10 := by
    rw [specWeightedRateS, htc, hac]
    norm_num
  refine ⟨by rw [hmap]; rfl, h1, h2, ?_⟩
  rw [h1, h2]
  norm_num

/-- C1 amended: `ConsensusManager.reach_consensus` computes the
confidence-weighted approval rate of the spec whenever at least
`min_votes` votes were collected (and reports 0 with the
insufficient-votes marker otherwise), while `SwarmAgent.propose_action`
computes the count of approve votes divided by the total number of votes
(0 when there are no votes). -/
theorem c1_amended (min_confidence : ℚ) (min_votes : ℕ)
    (cv : List CVote) (sv : List SVote) (h : min_votes ≤ cv.length) :
    (reach_consensus min_confidence min_votes cv).approval_rate
      = specWeightedRateC cv
    ∧ (propose_aggregate min_confidence min_votes sv).approval_rate
      = (if sv.length = 0 then 0
         else (positive_votes sv : ℚ) / (sv.length : ℚ)) := by
  constructor
  · simp only [reach_consensus]
    rw [if_neg (Nat.not_lt.mpr h)]
    rfl
  · simp only [propose_aggregate]
    rcases Nat.eq_zero_or_pos sv.length with h0 | h0
    · simp [h0]
    · simp [h0, Nat.not_eq_zero_of_lt h0]

/-- C1 amended, witness: the amended statement applied to the concrete
round `c1votes` on both code paths. -/
theorem c1_amended_witness :
    (reach_consensus (7/10) 1
      [⟨"a", true, 9/10, "x"⟩]).approval_rate
      = specWeightedRateC [⟨"a", true, 9/10, "x"⟩]
    ∧ (propose_aggregate (7/10) 1 c1votes).approval_rate
      = (if c1votes.length = 0 then 0
         else (positive_votes c1votes : ℚ) / (c1votes.length : ℚ)) :=
  c1_amended (7/10) 1 [⟨"a", true, 9/10, "x"⟩] c1votes (by decide)

/-- C2 counterexample: with minConfidence 7/10 and minVotes 2,
`reach_consensus` on `c2votes` sets the consensus flag although only one
vote approves (1 < minVotes = 2), because it gates on the TOTAL number of
votes, not the approve count; the claimed equivalence fails here. -/
theorem c2_counterexample :
    (reach_consensus (7/10) 2 c2votes).consensus = true
    ∧ count_approve c2votes = 1
    ∧ ¬ (2 ≤ count_approve c2votes) := by
  have htc : total_confidence c2votes = 1 := by
    norm_num [total_confidence, c2votes]
  have hfilter : c2votes.filter (fun v => v.decision)
      = [⟨"a", true, 9/10, "x"⟩] := by rfl
  have hac : approve_confidence c2votes = 9/10 := by
    rw [approve_confidence, hfilter]
    simp
  have hw : (reach_consensus (7/10) 2 c2votes).consensus = true := by
    simp only [reach_consensus]
    rw [if_neg (by norm_num [c2votes])]
    simp only [htc, hac]
    norm_num
  exact ⟨hw, by rfl, by decide⟩

/-- C2 amended: the equivalence as claimed holds for the outcome of
`SwarmAgent.propose_action` (consensus iff its approvalRate reaches
minConfidence and the approve count reaches minVotes), while for
`ConsensusManager.reach_consensus` the consensus flag is equivalent to the
TOTAL number of votes reaching minVotes together with the approvalRate
reaching minConfidence; the approve count plays no role there. -/
theorem c2_amended (min_confidence : ℚ) (min_votes : ℕ)
    (cv : List CVote) (sv : List SVote) :
    ((propose_aggregate min_confidence min_votes sv).consensus = true
      ↔ (min_confidence ≤ (propose_aggregate min_confidence min_votes sv).approval_rate
          ∧ min_votes ≤ positive_votes sv))
    ∧ ((reach_consensus min_confidence min_votes cv).consensus = true
      ↔ (min_votes ≤ cv.length
          ∧ min_confidence ≤ (reach_consensus min_confidence min_votes cv).approval_rate)) := by
  constructor
  · simp [propose_aggregate]
  · by_cases h : cv.length < min_votes
    · simp only [reach_consensus]
      rw [if_pos h]
      simp [Nat.not_le.mpr h]
    · simp only [reach_consensus]
      rw [if_neg h]
      simp [Nat.not_lt.mp h]

/-- C6 counterexample: in the `ConsensusManager` path, the raising agent
"b" is NOT counted as a reject/confidence-0 vote -- its vote is dropped
entirely: the collected votes consist of agent "a"'s vote alone and the
outcome records total_votes = 1, not 2. -/
theorem c6_counterexample :
    collect_votes [okAgent, badAgent] = [⟨"a", true, 9/10, "ok"⟩]
    ∧ (reach_consensus (7/10) 1 (collect_votes [okAgent, badAgent])).total_votes = 1 := by
  constructor
  · rfl
  · rfl

/-- C6 amended: in the `SwarmAgent` path a running peer whose evaluation
raises is converted into a reject vote with confidence 0 and
`propose_action` counts every peer (the coordinator returns a total
outcome rather than propagating the failure); in the `ConsensusManager`
path, by contrast, `collect_votes` silently drops the vote of every agent
whose evaluation raised, so the outcome only counts the agents that
succeeded. -/
theorem c6_amended (mc mcP : ℚ) (mv : ℕ) (e : String)
    (peers : List PeerState) (agents : List AgentSpec) :
    evaluate_proposal mc true (Except.error e)
      = ⟨Decision.reject, 0, "Evaluation failed: " ++ e⟩
    ∧ (propose_action mcP mv peers).total_votes = peers.length
    ∧ (collect_votes agents).length = (agents.filter eval_succeeded).length := by
  refine ⟨rfl, ?_, ?_⟩
  · simp [propose_action, propose_aggregate]
  · induction agents with
    | nil => rfl
    | cons a as ih =>
      cases ha : a.eval with
      | ok r =>
        simp [collect_votes, get_agent_vote, eval_succeeded, ha,
          List.filterMap_cons, List.filter_cons] at ih ⊢
        exact ih
      | error err =>
        simp [collect_votes, get_agent_vote, eval_succeeded, ha,
          List.filterMap_cons, List.filter_cons] at ih ⊢
        exact ih

/-- C4 counterexample: a present source record whose price is 0 (not
strictly positive) IS returned to the caller and IS written to the cache
-- `get_token_price` only tests presence (`if price_data:`), never
`price > 0`. -/
theorem c4_counterexample :
    (get_token_price 30 100 [] "SOL" [Except.ok (some zeroPriceRec)]).1
      = Except.ok zeroPriceRec.to_dict
    ∧ zeroPriceRec.to_dict.price = 0
    ∧ cache_lookup (get_token_price 30 100 [] "SOL" [Except.ok (some zeroPriceRec)]).2
        "price_SOL" = some (zeroPriceRec.to_dict, 100) := by
  refine ⟨rfl, rfl, rfl⟩

/-- C4 amended: on a cache miss, `get_token_price` returns and caches the
`to_dict` image of the FIRST present source record, whatever its price:
no positivity (and no confidence) check is performed on the way out or
into the cache. -/
theorem c4_amended (ttl now : ℚ) (cache : PriceCache) (symbol : String)
    (results : List SourceResult) (pd : PriceData)
    (hmiss : is_cache_valid ttl now cache ("price_" ++ py_upper symbol) = false)
    (hfirst : fetch_first results none = Except.ok pd) :
    (get_token_price ttl now cache symbol results).1 = Except.ok pd.to_dict
    ∧ (get_token_price ttl now cache symbol results).2
      = cache_insert cache ("price_" ++ py_upper symbol) pd.to_dict now := by
  constructor
  · simp [get_token_price, hmiss, hfirst]
  · simp [get_token_price, hmiss, hfirst]

/-- C4 amended, witness: the amended statement at the zero-price record. -/
theorem c4_amended_witness :
    (get_token_price 30 100 [] "SOL" [Except.ok (some zeroPriceRec)]).1
      = Except.ok zeroPriceRec.to_dict
    ∧ (get_token_price 30 100 [] "SOL" [Except.ok (some zeroPriceRec)]).2
      = cache_insert [] ("price_" ++ py_upper "SOL") zeroPriceRec.to_dict 100 :=
  c4_amended 30 100 [] "SOL" [Except.ok (some zeroPriceRec)] zeroPriceRec rfl rfl

/-- `_get_price_pyth` on the stale feed yields `c8record`. -/
theorem get_price_pyth_old :
    get_price_pyth "SOL" (some oldPythFeed) = some c8record := by
  simp only [get_price_pyth, oldPythFeed, c8record]
  norm_num

/-- C8 counterexample: fetch via Pyth at time 100 (the record is cached
with INSERTION time 100 but carries its own timestamp field 0, the oracle
publish time), then hit the cache at time 105. The hit is returned --
105 − 100 = 5 < 30 -- yet `t − r.timestamp = 105 − 0 = 105 ≥ 30`: the
claimed bound on the record's own timestamp field fails. -/
theorem c8_counterexample :
    (get_token_price 30 105
        (get_token_price 30 100 [] "SOL" [Except.ok (get_price_pyth "SOL" (some oldPythFeed))]).2
        "SOL" []).1
      = Except.ok c8record.to_dict
    ∧ c8record.to_dict.timestamp = 0
    ∧ ¬ ((105 : ℚ) - c8record.to_dict.timestamp < 30) := by
  have hkey : ("price_" ++ py_upper "SOL") = "price_SOL" := rfl
  have hstep1 :
      (get_token_price 30 100 [] "SOL" [Except.ok (get_price_pyth "SOL" (some oldPythFeed))]).2
        = [("price_SOL", c8record.to_dict, 100)] := by
    rw [get_price_pyth_old]
    rfl
  refine ⟨?_, rfl, by norm_num [c8record, PriceData.to_dict]⟩
  rw [hstep1]
  have hl : cache_lookup [("price_SOL", c8record.to_dict, 100)] "price_SOL"
      = some (c8record.to_dict, 100) := rfl
  have hvalid : is_cache_valid 30 105 [("price_SOL", c8record.to_dict, 100)] "price_SOL" = true := by
    simp only [is_cache_valid, hl]
    exact decide_eq_true (by norm_num)
  simp [get_token_price, hkey, hvalid, hl]

/-- C8 amended: for every cache hit at time `t`, `t` minus the entry's
INSERTION time is below the TTL; it is the insertion time stored next to
the record in the cache, not the record's own timestamp field, that is
checked (`_is_cache_valid`), and the two differ for oracle sources such
as Pyth whose records carry the publish time. -/
theorem c8_amended (ttl now : ℚ) (cache : PriceCache) (symbol : String)
    (results : List SourceResult) (d : PriceDict) (tins : ℚ)
    (hlook : cache_lookup cache ("price_" ++ py_upper symbol) = some (d, tins))
    (hvalid : is_cache_valid ttl now cache ("price_" ++ py_upper symbol) = true) :
    (get_token_price ttl now cache symbol results).1 = Except.ok d
    ∧ now - tins < ttl := by
  constructor
  · simp [get_token_price, hvalid, hlook]
  · have := hvalid
    rw [is_cache_valid, hlook] at this
    exact of_decide_eq_true this

/-- C8 amended, witness: the amended statement at the stale-Pyth cache of
the counterexample. -/
theorem c8_amended_witness :
    (get_token_price 30 105 [("price_SOL", c8record.to_dict, 100)] "SOL" []).1
      = Except.ok c8record.to_dict
    ∧ (105 : ℚ) - 100 < 30 :=
  c8_amended 30 105 [("price_SOL", c8record.to_dict, 100)] "SOL" []
    c8record.to_dict 100 rfl (by
      have hl : cache_lookup [("price_SOL", c8record.to_dict, 100)]
          ("price_" ++ py_upper "SOL") = some (c8record.to_dict, 100) := rfl
      simp only [is_cache_valid, hl]
      exact decide_eq_true (by norm_num))

/-- C7: the overview always has exactly four token entries and three DEX
entries (that part of the claim holds, even with every source failed),
but a token slot whose fetch SUCCEEDED still carries an error entry: the
success branch compares against `PriceData` while `get_token_price`
returns a dict, so it is unreachable. Evaluated at a round where the SOL
fetch succeeds and everything else fails: the SOL slot is an error entry
wrapping the stringified dict, while the successful DEX slot does carry
its data. -/
theorem c7_overview (sol usdc ray orca : Except String PriceDict)
    (raydium orca_dex jupiter : Except String DexData) :
    (get_market_overview sol usdc ray orca raydium orca_dex jupiter).tokens.length = 4
    ∧ (get_market_overview sol usdc ray orca raydium orca_dex jupiter).dexes.length = 3
    ∧ (get_market_overview (Except.ok solDict) (Except.error "x") (Except.error "y")
        (Except.error "z") (Except.ok raydiumData) (Except.error "b")
        (Except.error "c")).tokens
      = [("SOL", Slot.err (py_str_price_dict solDict)),
         ("USDC", Slot.err "x"), ("RAY", Slot.err "y"), ("ORCA", Slot.err "z")]
    ∧ (get_market_overview (Except.ok solDict) (Except.error "x") (Except.error "y")
        (Except.error "z") (Except.ok raydiumData) (Except.error "b")
        (Except.error "c")).dexes
      = [("raydium", Slot.data ⟨1000, 50, 10⟩),
         ("orca", Slot.err "b"), ("jupiter", Slot.err "c")] := by
  exact ⟨rfl, rfl, rfl, rfl⟩

/-- C9 counterexample: on a response that fails to parse as JSON, the
fallback's confidence is indeed 0.3, but its reasoning is the literal
"LLM response could not be parsed as JSON" -- not the claimed
"response parse failed". -/
theorem c9_counterexample :
    parse_response "market_analyzer" (Except.error ())
      = Except.ok { observation := Json.str "Response from market_analyzer"
                    reasoning := Json.str "LLM response could not be parsed as JSON"
                    conclusion := Json.str "Unable to provide structured analysis"
                    confidence := Json.num (3/10) }
    ∧ "LLM response could not be parsed as JSON" ≠ "response parse failed" := by
  exact ⟨rfl, by decide⟩

/-- C9 amended: on a response that fails to parse as JSON,
`_parse_response` returns (rather than raises) a structured fallback with
confidence 0.3 whose reasoning is "LLM response could not be parsed as
JSON", and the evaluation path hands the swarm a normal result with no
"error" entry -- the parse failure is not propagated. -/
theorem c9_amended (role : String) :
    parse_response role (Except.error ())
      = Except.ok { observation := Json.str ("Response from " ++ role)
                    reasoning := Json.str "LLM response could not be parsed as JSON"
                    conclusion := Json.str "Unable to provide structured analysis"
                    confidence := Json.num (3/10) }
    ∧ (evaluate_llm role (Except.error ())).error = none
    ∧ (evaluate_llm role (Except.error ())).confidence = some (3/10) := by
  exact ⟨rfl, rfl, rfl⟩

/-- C10 counterexample: the LLM response "[]" is a string input that
parses as JSON (to the empty list), yet `_parse_response` does not return
a result at all -- it raises TypeError -- so it is not the case that the
function returns a confidence in [0,1] for every string input. -/
theorem c10_counterexample :
    parse_response "market_analyzer" (Except.ok (Json.arr [])) = Except.error PyError.typeError := by
  exact rfl

/-- Helper: on any outcome `_parse_response` actually returns, the
confidence entry is numeric and lies in [0,1]. -/
theorem parse_response_conf_mem (role : String) (parsed : Except Unit Json)
    (r : ParsedResult) (h : parse_response role parsed = Except.ok r) :
    json_is_numeric r.confidence = true
    ∧ 0 ≤ json_num_val r.confidence ∧ json_num_val r.confidence ≤ 1 := by
  match parsed with
  | .error _ =>
    simp only [parse_response] at h
    cases h
    refine ⟨rfl, by norm_num [json_num_val], by norm_num [json_num_val]⟩
  | .ok (.obj fields) =>
    simp only [parse_response] at h
    cases h
    by_cases hn : (json_is_numeric ((json_lookup fields "confidence").getD (Json.num (5/10)))
        && decide (0 ≤ json_num_val ((json_lookup fields "confidence").getD (Json.num (5/10))))
        && decide (json_num_val ((json_lookup fields "confidence").getD (Json.num (5/10))) ≤ 1)) = true
    · simp only [hn, if_true]
      have h1 := (Bool.and_eq_true _ _).mp hn
      have h2 := (Bool.and_eq_true _ _).mp h1.1
      exact ⟨h2.1, of_decide_eq_true h2.2, of_decide_eq_true h1.2⟩
    · simp only [Bool.not_eq_true] at hn
      simp only [hn, if_false]
      refine ⟨rfl, by norm_num [json_num_val], by norm_num [json_num_val]⟩
  | .ok (.arr _) => exact Except.noConfusion h
  | .ok (.str _) => exact Except.noConfusion h
  | .ok (.num _) => exact Except.noConfusion h
  | .ok (.jbool _) => exact Except.noConfusion h
  | .ok .null => exact Except.noConfusion h

/-- Helper: the confidence a running agent's vote carries, as a function
of the evaluation result dict: 0 on an "error" entry, otherwise the
result's confidence entry (0.5 when absent); the decision branches do not
change it. -/
theorem evaluate_proposal_confidence (mc : ℚ) (out : EvalOutput) :
    (evaluate_proposal mc true (Except.ok out)).confidence
      = (match out.error with
         | some _ => 0
         | none => out.confidence.getD (5/10)) := by
  cases h : out.error with
  | some e => simp [evaluate_proposal, h]
  | none =>
    simp only [evaluate_proposal, h, Bool.not_true, Bool.false_eq_true, if_false]
    by_cases h1 : mc ≤ out.confidence.getD (5/10)
    · simp [h1]
    · by_cases h2 : (4/10 : ℚ) ≤ out.confidence.getD (5/10) <;> simp [h1, h2]

/-- C10 amended: `_parse_response` only RETURNS on inputs that fail to
parse (confidence 0.3) or parse to a JSON object (confidence numeric in
[0,1], default 0.5 when the entry is missing, 0.5 when it is non-numeric
or out of range); on inputs parsing to any other JSON value it raises
TypeError instead of returning. `evaluate` catches that TypeError and
reports confidence 0, so every vote built from the LLM evaluation path
still carries a confidence in [0,1]. -/
theorem c10_amended (role : String) (mc : ℚ)
    (fields : List (String × Json)) (parsed : Except Unit Json) :
    (∃ q, parsed_conf role (Except.ok (Json.obj fields)) = some q ∧ 0 ≤ q ∧ q ≤ 1)
    ∧ parsed_conf role (Except.ok (Json.obj [])) = some (5/10)
    ∧ parsed_conf role (Except.error ()) = some (3/10)
    ∧ 0 ≤ (evaluate_proposal mc true (Except.ok (evaluate_llm role parsed))).confidence
    ∧ (evaluate_proposal mc true (Except.ok (evaluate_llm role parsed))).confidence ≤ 1 := by
  have hobj : ∀ fs : List (String × Json),
      ∃ q, parsed_conf role (Except.ok (Json.obj fs)) = some q ∧ 0 ≤ q ∧ q ≤ 1 := by
    intro fs
    obtain ⟨r, hr⟩ : ∃ r, parse_response role (Except.ok (Json.obj fs)) = Except.ok r :=
      ⟨_, rfl⟩
    obtain ⟨-, hq0, hq1⟩ := parse_response_conf_mem role (Except.ok (Json.obj fs)) r hr
    exact ⟨json_num_val r.confidence, by simp [parsed_conf, hr], hq0, hq1⟩
  have hempty : parsed_conf role (Except.ok (Json.obj [])) = some (5/10) := by
    have hnum : (json_is_numeric (Json.num (5/10))
        && decide (0 ≤ json_num_val (Json.num (5/10)))
        && decide (json_num_val (Json.num (5/10)) ≤ 1)) = true := by
      simp only [json_is_numeric, json_num_val, Bool.true_and]
      rw [decide_eq_true (by norm_num : (0:ℚ) ≤ 5/10),
        decide_eq_true (by norm_num : (5:ℚ)/10 ≤ 1)]
      rfl
    simp [parsed_conf, parse_response, json_lookup, hnum, json_num_val]
  have hvote :
      0 ≤ (evaluate_proposal mc true (Except.ok (evaluate_llm role parsed))).confidence
      ∧ (evaluate_proposal mc true (Except.ok (evaluate_llm role parsed))).confidence ≤ 1 := by
    rw [evaluate_proposal_confidence]
    cases hpr : parse_response role parsed with
    | ok r =>
      obtain ⟨-, hq0, hq1⟩ := parse_response_conf_mem role parsed r hpr
      simpa [evaluate_llm, hpr] using And.intro hq0 hq1
    | error e =>
      simp [evaluate_llm, hpr]
  exact ⟨hobj fields, hempty, rfl, hvote.1, hvote.2⟩

/-- C3 counterexample: with max_retries = 3 and two clients (primary plus
one backup), a send that is transmitted to the primary and then fails is
RE-SENT to the backup within the same invocation: two sendTransaction
calls reach remote endpoints, not at most one. -/
theorem c3_counterexample :
    send_transaction_run 3 2 c3behavior = (some "sig", 2)
    ∧ ¬ ((send_transaction_run 3 2 c3behavior).2 ≤ 1) := by
  exact ⟨rfl, by decide⟩

/-- Each step transmits at most one send. -/
theorem sendStep_sends_le_one (s : SendStep) : s.sends ≤ 1 := by
  cases s <;> simp [SendStep.sends]

/-- Helper bound: one pass over the clients transmits at most one send
per client tried. -/
theorem attempt_clients_sends_le (step : ℕ → SendStep) (idxs : List ℕ) :
    (attempt_clients step idxs).2 ≤ idxs.length := by
  induction idxs with
  | nil => simp [attempt_clients]
  | cons i rest ih =>
    simp only [attempt_clients]
    cases h : (step i).result with
    | some s =>
      simp only [List.length_cons]
      calc (step i).sends ≤ 1 := sendStep_sends_le_one _
        _ ≤ rest.length + 1 := by omega
    | none =>
      simp only [List.length_cons]
      have h1 := sendStep_sends_le_one (step i)
      omega

/-- C3 amended: `send_transaction` goes through the generic
retry-with-failover loop, so one invocation may transmit up to
`max_retries × (1 + number of backups)` sendTransaction RPC calls; a send
that fails after transmission is retried on the remaining clients and in
later attempt cycles rather than stopping at one transmitted send. -/
theorem c3_amended (max_retries num_clients : ℕ) (behavior : ℕ → ℕ → SendStep) :
    (send_transaction_run max_retries num_clients behavior).2
      ≤ max_retries * num_clients := by
  rw [send_transaction_run]
  have hgen : ∀ attempts : List ℕ,
      (run_attempts behavior num_clients attempts).2 ≤ attempts.length * num_clients := by
    intro attempts
    induction attempts with
    | nil => simp [run_attempts]
    | cons a rest ih =>
      simp only [run_attempts]
      have h1 := attempt_clients_sends_le (behavior a) (List.range num_clients)
      rw [List.length_range] at h1
      cases h : (attempt_clients (behavior a) (List.range num_clients)).1 with
      | some s =>
        simp only [List.length_cons]
        calc (attempt_clients (behavior a) (List.range num_clients)).2
            ≤ num_clients := h1
          _ ≤ (rest.length + 1) * num_clients := by
              have : 1 ≤ rest.length + 1 := by omega
              calc num_clients = 1 * num_clients := (one_mul _).symm
                _ ≤ (rest.length + 1) * num_clients :=
                    Nat.mul_le_mul_right _ this
      | none =>
        simp only [List.length_cons]
        have := ih
        have hsum : (attempt_clients (behavior a) (List.range num_clients)).2
            + (run_attempts behavior num_clients rest).2
            ≤ num_clients + rest.length * num_clients := by omega
        calc (attempt_clients (behavior a) (List.range num_clients)).2
            + (run_attempts behavior num_clients rest).2
            ≤ num_clients + rest.length * num_clients := hsum
          _ = (rest.length + 1) * num_clients := by ring
  have := hgen (List.range max_retries)
  rwa [List.length_range] at this

/-- C5 counterexample: with neither key source provided, construction
raises ConfigError. Under the claim this should instead produce an
ephemeral keypair whenever the simulation flag is set (and the
repository's guardian defaults simulation to on), but `SolanaConfig` has
no simulation flag at all and no generation branch: it refuses
unconditionally. -/
theorem c5_counterexample :
    post_init noKeyConfig
      = Except.error "Either private_key or wallet_path must be provided" := by
  exact rfl

/-- C5 amended: when neither a base58 secret key nor a keypair file path
is provided (Python-falsy: empty or None), `SolanaConfig.__post_init__`
never succeeds -- it raises ConfigError regardless of any simulation
setting, and no ephemeral keypair is ever generated; when one of the two
is provided (and the network resolves), construction succeeds and
`SolanaConnection.initialize` later attempts to load the keypair from it
once in `_load_keypair`. -/
theorem c5_amended (c : SolanaConfigIn)
    (hpk : c.private_key = "") (hwp : opt_truthy c.wallet_path = false) :
    ∀ out : SolanaConfigOut, post_init c ≠ Except.ok out := by
  intro out
  rw [post_init]
  cases hres : (if c.rpc_url == "" then
           (if c.network == "mainnet-beta" then
              Except.ok "https://api.mainnet-beta.solana.com"
            else if c.network == "devnet" then
              Except.ok "https://api.devnet.solana.com"
            else
              Except.error ("RPC URL required for network: " ++ c.network))
         else Except.ok c.rpc_url : Except String String) with
  | error e => simp
  | ok rpc =>
    have hcond : (c.private_key == "" && !(opt_truthy c.wallet_path)) = true := by
      rw [hwp, hpk]
      rfl
    simp [hcond]

/-- C5 amended, witness: the amended statement at the concrete no-key
configuration, against the validated config it would otherwise produce. -/
theorem c5_amended_witness :
    post_init noKeyConfig
      ≠ Except.ok ⟨"mainnet-beta", "https://api.mainnet-beta.solana.com",
          "wss://api.mainnet-beta.solana.com", "", none, []⟩ :=
  c5_amended noKeyConfig rfl rfl
    ⟨"mainnet-beta", "https://api.mainnet-beta.solana.com",
      "wss://api.mainnet-beta.solana.com", "", none, []⟩

end SolanaStudio
